import Mathlib

/-!
Chat relay endpoint of `server.js`.

A shallow embedding of the `POST /chat` handler of `src/server.js` and the
properties of its request validation, history window, upstream request and
error mapping.

The handler is JavaScript, so the values it touches are dynamically typed.
They are embedded as `JsVal`. The upstream client `anthropic.messages.create`
is a parameter of the handler: a function from the request it is given to
either a reply or a thrown value. The handler returns the list of upstream
requests it issued together with what it did to the HTTP response.
-/

namespace ChatRelay

/-! ## JavaScript values -/

/-- JavaScript values as they reach the handler: what `JSON.parse` produces,
plus `undefined` (the value of a missing property). Numbers are modelled as
integers: the handler tests a number only for being zero (truthiness) and for
being equal to `429` or `401`. Strings are well-formed Unicode text. -/
inductive JsVal where
  | undefined : JsVal
  | null : JsVal
  | bool (b : Bool) : JsVal
  | num (n : Int) : JsVal
  | str (s : String) : JsVal
  | arr (items : List JsVal) : JsVal
  | obj (fields : List (String × JsVal)) : JsVal

namespace JsVal

/-- Own property `key` of an object given by its field list, which holds one
entry for each property of the parsed object. -/
def lookupField (key : String) : List (String × JsVal) → Option JsVal
  | [] => none
  | (k, v) :: rest => if k = key then some v else lookupField key rest

/-- JavaScript truthiness, the test behind `!message`. -/
def truthy : JsVal → Bool
  | undefined => false
  | null => false
  | bool b => b
  | num n => n != 0
  | str s => s != ""
  | arr _ => true
  | obj _ => true

/-- The `TypeError` object the engine throws: an object with a `message` text
and no `status`. The texts are those of V8, the engine of Node.js; the handler
only forwards them. -/
def typeError (text : String) : JsVal :=
  obj [("message", str text)]

/-- Number of UTF-16 code units of one character. -/
def utf16Units (c : Char) : Nat :=
  if c.toNat < 65536 then 1 else 2

/-- The `length` of a string: its number of UTF-16 code units. -/
def utf16Length (s : String) : Nat :=
  (s.toList.map utf16Units).sum

/-- Property read `v.key` for the property names the handler reads
(`message`, `history`, `role`, `content`, `status`, `text`, `length`). None of
these but `length` is defined on a built-in prototype, so reading one off a
primitive or an array gives `undefined`; reading any property off `undefined`
or `null` throws a `TypeError`. -/
def getProp (v : JsVal) (key : String) : Except JsVal JsVal :=
  match v with
  | undefined =>
    .error (typeError ("Cannot read properties of undefined (reading \x27" ++ key ++ "\x27)"))
  | null =>
    .error (typeError ("Cannot read properties of null (reading \x27" ++ key ++ "\x27)"))
  | bool _ => .ok undefined
  | num _ => .ok undefined
  | str s => if key = "length" then .ok (num (utf16Length s)) else .ok undefined
  | arr items => if key = "length" then .ok (num items.length) else .ok undefined
  | obj fields => .ok ((lookupField key fields).getD undefined)

/-- Element read `v[0]`. -/
def getIndex0 (v : JsVal) : Except JsVal JsVal :=
  match v with
  | undefined => .error (typeError "Cannot read properties of undefined (reading \x270\x27)")
  | null => .error (typeError "Cannot read properties of null (reading \x270\x27)")
  | bool _ => .ok undefined
  | num _ => .ok undefined
  | str s =>
    match s.toList with
    | [] => .ok undefined
    | c :: _ => .ok (str (String.singleton c))
  | arr items => .ok (items.headD undefined)
  | obj fields => .ok ((lookupField "0" fields).getD undefined)

/-- Strict equality `v === n` against a number literal. -/
def strictEqNum (v : JsVal) (n : Int) : Bool :=
  match v with
  | num k => k == n
  | _ => false

mutual

/-- Whether the conversion of a value to a string, as in a template literal
`${v}`, returns. A primitive always converts. An object converts through the
`toString` it inherits, unless it has an own `toString` field: that field of a
parsed object is not callable, the inherited `valueOf` returns the object
itself, and the conversion throws. An array converts through `join`, which
converts each of its entries. The bound of the engine on the depth of this
recursion is left out. -/
def convertsToString : JsVal → Bool
  | arr items => allConvertToString items
  | obj fields => (lookupField "toString" fields).isNone
  | _ => true

/-- Whether every entry of an array converts to a string. -/
def allConvertToString : List JsVal → Bool
  | [] => true
  | v :: rest => convertsToString v && allConvertToString rest

end

/-- The conversion `${v}` of a template literal, for its effect: it returns,
or throws a `TypeError`. The text it produces only goes to the log. -/
def stringConversion (v : JsVal) : Except JsVal Unit :=
  if convertsToString v then .ok ()
  else .error (typeError "Cannot convert object to primitive value")

end JsVal

open JsVal

/-! ## The handler's data -/

/-- One entry pushed on `messages`: the object literal
`{ role: msg.role, content: msg.content }`. -/
structure Msg where
  role : JsVal
  content : JsVal

/-- Argument object of `anthropic.messages.create`. -/
structure UpstreamRequest where
  model : String
  max_tokens : Nat
  system : String
  messages : List Msg

/-- The upstream client: for the request it is given, the reply the awaited
promise resolves to, or the value it rejects with. -/
abbrev Upstream := UpstreamRequest → Except JsVal JsVal

/-- What the handler does to the HTTP exchange: it sends one JSON response
(`res.status(s).json(body)`, status 200 for a bare `res.json(body)`), or an
exception leaves the handler without a response being sent. `body` is the
field list of the object literal given to `res.json`. -/
inductive Outcome where
  | responded (status : Nat) (body : List (String × JsVal)) : Outcome
  | escaped (error : JsVal) : Outcome

/-- Result of handling one request: the upstream requests issued, in order,
and the outcome. -/
structure Result where
  calls : List UpstreamRequest
  outcome : Outcome

/-- The constant `SYSTEM_PROMPT`. -/
def SYSTEM_PROMPT : String :=
  "You are an expert Minecraft AI assistant with deep knowledge of:\n" ++
  "- Minecraft mods (building, performance, utility, gameplay, graphics)\n" ++
  "- Server setup and administration (Paper, Spigot, Forge, Fabric)\n" ++
  "- Building techniques and creative tools\n" ++
  "- Performance optimization\n" ++
  "- Modpack creation and management\n" ++
  "- Technical Minecraft concepts\n" ++
  "\n" ++
  "When recommending mods:\n" ++
  "1. Provide the mod name clearly\n" ++
  "2. Include download sources (CurseForge, Modrinth, official sites)\n" ++
  "3. Specify compatibility (Forge/Fabric, Minecraft versions)\n" ++
  "4. Explain what makes each mod useful\n" ++
  "5. Give installation tips when relevant\n" ++
  "\n" ++
  "Format your responses with:\n" ++
  "- Clear headings using **bold** for mod names\n" ++
  "- Emojis for visual appeal (🏗️⚡🖥️💎🔧 etc)\n" ++
  "- Bullet points for features\n" ++
  "- Download links when possible\n" ++
  "- Specific version compatibility info\n" ++
  "\n" ++
  "Be helpful, detailed, and enthusiastic about Minecraft!\n" ++
  "Always provide actionable information that users can immediately use."

/-! ## The handler -/

/-- The last `n` elements of a list: `xs.slice(-n)` on an array. -/
def lastN {α : Type} (n : Nat) (xs : List α) : List α :=
  xs.drop (xs.length - n)

/-- The characters a `for ... of` loop visits on `s.slice(-10)` for a string,
given the characters of `s` from the last to the first and the number of
UTF-16 code units still inside the slice; the result is again from the last to
the first. The loop visits code points. A character of two code units cut by
the start of the slice leaves its second unit as one element, which is not
well-formed text: the whole character stands for it. -/
def stringWindow : List Char → Nat → List Char
  | [], _ => []
  | _ :: _, 0 => []
  | c :: cs, b + 1 =>
    if utf16Units c = 1 then c :: stringWindow cs b
    else
      match b with
      | 0 => [c]
      | b + 1 => c :: stringWindow cs b

/-- The value of `history.slice(-10)` as the list of elements the loop
`for (const msg of recentHistory)` visits. An array gives its last ten
entries; a string gives one-character strings out of its last ten code units;
any other value has no callable `slice` and the call throws a `TypeError`. -/
def recentHistory (history : JsVal) : Except JsVal (List JsVal) :=
  match history with
  | .undefined =>
    .error (typeError "Cannot read properties of undefined (reading \x27slice\x27)")
  | .null => .error (typeError "Cannot read properties of null (reading \x27slice\x27)")
  | .arr items => .ok (lastN 10 items)
  | .str s =>
    .ok (((stringWindow s.toList.reverse 10).reverse).map (fun c => str (String.singleton c)))
  | .bool _ => .error (typeError "history.slice is not a function")
  | .num _ => .error (typeError "history.slice is not a function")
  | .obj _ => .error (typeError "history.slice is not a function")

/-- The object pushed for one entry: `{ role: msg.role, content: msg.content }`. -/
def project (msg : JsVal) : Except JsVal Msg :=
  match getProp msg "role" with
  | .error e => .error e
  | .ok role =>
    match getProp msg "content" with
    | .error e => .error e
    | .ok content => .ok { role := role, content := content }

/-- The loop `for (const msg of recentHistory) messages.push(...)`, started on
an empty `messages`: the entries pushed, or the exception of the first entry
whose property read throws. -/
def pushAll : List JsVal → Except JsVal (List Msg)
  | [] => .ok []
  | msg :: rest =>
    match project msg with
    | .error e => .error e
    | .ok m =>
      match pushAll rest with
      | .error e => .error e
      | .ok ms => .ok (m :: ms)

/-- Lines 61-70: the `messages` array built from `history`. -/
def buildMessages (history : JsVal) : Except JsVal (List Msg) :=
  match recentHistory history with
  | .error e => .error e
  | .ok recent => pushAll recent

/-- The destructuring `const { message, history = [] } = req.body`: the pair
`(message, history)`, the default `[]` standing in for an `undefined`
`history`. Destructuring `undefined` or `null` throws. -/
def destructure (body : JsVal) : Except JsVal (JsVal × JsVal) :=
  match body with
  | .undefined =>
    .error (typeError
      "Cannot destructure property \x27message\x27 of \x27req.body\x27 as it is undefined.")
  | .null =>
    .error (typeError
      "Cannot destructure property \x27message\x27 of \x27req.body\x27 as it is null.")
  | _ =>
    match getProp body "message" with
    | .error e => .error e
    | .ok message =>
      match getProp body "history" with
      | .error e => .error e
      | .ok .undefined => .ok (message, arr [])
      | .ok history => .ok (message, history)

/-- Lines 82-84: `response.content[0].text`, then `${aiResponse.length}` in
the log line: the read of `length`, which throws on `undefined` and `null`,
and the conversion of what was read to a string. -/
def extractText (response : JsVal) : Except JsVal JsVal :=
  match getProp response "content" with
  | .error e => .error e
  | .ok content =>
    match getIndex0 content with
    | .error e => .error e
    | .ok first =>
      match getProp first "text" with
      | .error e => .error e
      | .ok aiResponse =>
        match getProp aiResponse "length" with
        | .error e => .error e
        | .ok length =>
          match stringConversion length with
          | .error e => .error e
          | .ok _ => .ok aiResponse

/-- The `catch (error)` block. -/
def catchBlock (error : JsVal) : Outcome :=
  match getProp error "status" with
  | .error e => .escaped e
  | .ok status =>
    if strictEqNum status 429 then
      .responded 429 [("error", str "Rate limit exceeded. Please try again in a moment.")]
    else if strictEqNum status 401 then
      .responded 401 [("error", str "Invalid API key. Please check your configuration.")]
    else
      match getProp error "message" with
      | .error e => .escaped e
      | .ok details =>
        .responded 500 [("error", str "Failed to get AI response"), ("details", details)]

/-- The request built at lines 75-80 from the `messages` array. -/
def upstreamRequest (messages : List Msg) : UpstreamRequest :=
  { model := "claude-sonnet-4-20250514", max_tokens := 2048,
    system := SYSTEM_PROMPT, messages := messages }

/-- The handler of `POST /chat` on the parsed body `req.body`, with the
upstream client and the text of `new Date().toISOString()` at the time the
success body is built. Of the two `console.log` lines the handler keeps what
can throw: the conversion `${message}` at line 72, before the upstream call,
and `${aiResponse.length}` at line 84, after it. The text logged is not part
of the result. -/
def chat (body : JsVal) (upstream : Upstream) (now : String) : Result :=
  match destructure body with
  | .error e => { calls := [], outcome := catchBlock e }
  | .ok (message, history) =>
    if !truthy message then
      { calls := [], outcome := .responded 400 [("error", str "Message is required")] }
    else
      match buildMessages history with
      | .error e => { calls := [], outcome := catchBlock e }
      | .ok messages =>
        match stringConversion message with
        | .error e => { calls := [], outcome := catchBlock e }
        | .ok _ =>
          match upstream (upstreamRequest messages) with
          | .error e => { calls := [upstreamRequest messages], outcome := catchBlock e }
          | .ok response =>
            match extractText response with
            | .error e => { calls := [upstreamRequest messages], outcome := catchBlock e }
            | .ok aiResponse =>
              { calls := [upstreamRequest messages],
                outcome := .responded 200
                  [("response", aiResponse),
                   ("model", str "claude-sonnet-4-20250514"),
                   ("timestamp", str now)] }

/-! ## Statement vocabulary -/

/-- Whether a value is `null` or `undefined`, the two values a property read
throws on. -/
def nullish : JsVal → Bool
  | .undefined => true
  | .null => true
  | _ => false

/-- The `{role, content}` projection of a history entry, in the words of the
specification: the entry's `role` and `content`, `undefined` where the entry
has no such field. -/
def roleContent (entry : JsVal) : Msg :=
  match entry with
  | .obj fields =>
    { role := (lookupField "role" fields).getD undefined,
      content := (lookupField "content" fields).getD undefined }
  | _ => { role := undefined, content := undefined }

/-- A history entry consisting of exactly a `role` and a `content`, in either
key order, and the turn it denotes. -/
def IsTurn (entry : JsVal) (turn : Msg) : Prop :=
  entry = obj [("role", turn.role), ("content", turn.content)] ∨
  entry = obj [("content", turn.content), ("role", turn.role)]

/-- An outcome in which one JSON response was sent, with a status among 200,
400, 401, 429 and 500 and, unless the status is 200, a body whose `error`
field is a string. -/
def Answered (outcome : Outcome) : Prop :=
  ∃ status body, outcome = .responded status body ∧
    (status = 200 ∨ status = 400 ∨ status = 401 ∨ status = 429 ∨ status = 500) ∧
    (status ≠ 200 → ∃ text, lookupField "error" body = some (str text))

/-- A history of thirteen entries: twelve entries `{role: "user", content: k}`
for `k = 0, ..., 11`, with one field more in each, and a `null` entry in
front. -/
def thirteenEntries : List JsVal :=
  null :: (List.range 12).map (fun k =>
    obj [("id", num k), ("role", str "user"), ("content", num k)])

/-! ## Lemmas on the parts of the handler -/

theorem destructure_obj (fields : List (String × JsVal)) :
    destructure (obj fields) =
      .ok ((lookupField "message" fields).getD undefined,
        match (lookupField "history" fields).getD undefined with
        | .undefined => arr []
        | history => history) := by
  simp only [destructure, getProp]
  cases (lookupField "history" fields).getD undefined <;> rfl

theorem project_of_not_nullish (entry : JsVal) (h : nullish entry = false) :
    project entry = .ok (roleContent entry) := by
  cases entry <;> simp_all [nullish, project, getProp, roleContent]

theorem pushAll_of_not_nullish (entries : List JsVal)
    (h : ∀ e ∈ entries, nullish e = false) :
    pushAll entries = .ok (entries.map roleContent) := by
  induction entries with
  | nil => rfl
  | cons e rest ih =>
    have he : nullish e = false := h e (List.mem_cons_self e rest)
    have hrest : ∀ x ∈ rest, nullish x = false :=
      fun x hx => h x (List.mem_cons_of_mem e hx)
    simp [pushAll, project_of_not_nullish e he, ih hrest]

theorem pushAll_of_turns (entries : List JsVal) (turns : List Msg)
    (h : List.Forall₂ IsTurn entries turns) : pushAll entries = .ok turns := by
  induction h with
  | nil => rfl
  | cons hturn _ ih =>
    rcases hturn with rfl | rfl <;>
      simp [pushAll, project, getProp, lookupField, ih]

theorem lastN_of_length_le {α : Type} (n : Nat) (xs : List α) (h : xs.length ≤ n) :
    lastN n xs = xs := by
  simp [lastN, Nat.sub_eq_zero_of_le h]

/-- Once the body destructures with a truthy `message` that converts to a
string and the `messages` array is built, the handler issues exactly the one
request and the outcome is decided by the upstream result alone. -/
theorem chat_of_messages (body : JsVal) (upstream : Upstream) (now : String)
    (message history : JsVal) (messages : List Msg)
    (hd : destructure body = .ok (message, history))
    (hm : truthy message = true)
    (hb : buildMessages history = .ok messages)
    (hs : convertsToString message = true) :
    chat body upstream now =
      { calls := [upstreamRequest messages],
        outcome :=
          match upstream (upstreamRequest messages) with
          | .error e => catchBlock e
          | .ok response =>
            match extractText response with
            | .error e => catchBlock e
            | .ok aiResponse =>
              .responded 200
                [("response", aiResponse),
                 ("model", str "claude-sonnet-4-20250514"),
                 ("timestamp", str now)] } := by
  unfold chat
  simp only [hd, hm, hb, stringConversion, hs]
  cases upstream (upstreamRequest messages) with
  | error e => rfl
  | ok response =>
    simp only
    cases extractText response <;> rfl

/-- When building `messages` throws, no request is issued and the outcome is
that of the `catch` block. -/
theorem chat_of_build_error (body : JsVal) (upstream : Upstream) (now : String)
    (message history error : JsVal)
    (hd : destructure body = .ok (message, history))
    (hm : truthy message = true)
    (hb : buildMessages history = .error error) :
    chat body upstream now = { calls := [], outcome := catchBlock error } := by
  unfold chat
  simp [hd, hm, hb]

/-- When the conversion of `message` for the log line throws, no request is
issued and the outcome is that of the `catch` block. -/
theorem chat_of_log_error (body : JsVal) (upstream : Upstream) (now : String)
    (message history : JsVal) (messages : List Msg)
    (hd : destructure body = .ok (message, history))
    (hm : truthy message = true)
    (hb : buildMessages history = .ok messages)
    (hs : convertsToString message = false) :
    chat body upstream now =
      { calls := [],
        outcome := catchBlock (typeError "Cannot convert object to primitive value") } := by
  unfold chat
  simp [hd, hm, hb, stringConversion, hs]

theorem strictEqNum_of_ne (status : JsVal) (n : Int) (h : status ≠ num n) :
    strictEqNum status n = false := by
  cases status <;> simp_all [strictEqNum]

theorem catchBlock_of_status (error : JsVal) (n : Int)
    (h : getProp error "status" = .ok (num n)) :
    catchBlock error =
      if n = 429 then
        .responded 429 [("error", str "Rate limit exceeded. Please try again in a moment.")]
      else if n = 401 then
        .responded 401 [("error", str "Invalid API key. Please check your configuration.")]
      else
        match getProp error "message" with
        | .error e => .escaped e
        | .ok details =>
          .responded 500 [("error", str "Failed to get AI response"), ("details", details)] := by
  simp [catchBlock, h, strictEqNum]

theorem catchBlock_of_other_status (error status details : JsVal)
    (hs : getProp error "status" = .ok status)
    (h429 : status ≠ num 429) (h401 : status ≠ num 401)
    (hd : getProp error "message" = .ok details) :
    catchBlock error =
      .responded 500 [("error", str "Failed to get AI response"), ("details", details)] := by
  simp [catchBlock, hs, hd, strictEqNum_of_ne status 429 h429,
    strictEqNum_of_ne status 401 h401]

theorem extractText_of_text (response first : JsVal) (rest : List JsVal) (text : String)
    (hc : getProp response "content" = .ok (arr (first :: rest)))
    (ht : getProp first "text" = .ok (str text)) :
    extractText response = .ok (str text) := by
  unfold extractText
  rw [hc]
  simp only [getIndex0, List.headD_cons]
  rw [ht]
  simp [getProp, stringConversion, convertsToString]

theorem chat_of_destructure_error (body : JsVal) (upstream : Upstream) (now : String)
    (error : JsVal) (hd : destructure body = .error error) :
    chat body upstream now = { calls := [], outcome := catchBlock error } := by
  unfold chat
  simp [hd]

theorem chat_of_falsy_message (body : JsVal) (upstream : Upstream) (now : String)
    (message history : JsVal)
    (hd : destructure body = .ok (message, history))
    (hm : truthy message = false) :
    chat body upstream now =
      { calls := [],
        outcome := .responded 400 [("error", str "Message is required")] } := by
  unfold chat
  simp [hd, hm]

/-- The upstream requests of a run: none, or the one request built from the
`messages` array of a body that passed validation. -/
theorem chat_calls_cases (body : JsVal) (upstream : Upstream) (now : String) :
    (chat body upstream now).calls = [] ∨
      ∃ message history messages,
        destructure body = .ok (message, history) ∧ truthy message = true ∧
        buildMessages history = .ok messages ∧ convertsToString message = true ∧
        (chat body upstream now).calls = [upstreamRequest messages] := by
  cases hd : destructure body with
  | error e => left; rw [chat_of_destructure_error body upstream now e hd]
  | ok pair =>
    obtain ⟨message, history⟩ := pair
    cases hm : truthy message with
    | false => left; rw [chat_of_falsy_message body upstream now message history hd hm]
    | true =>
      cases hb : buildMessages history with
      | error e => left; rw [chat_of_build_error body upstream now message history e hd hm hb]
      | ok messages =>
        cases hs : convertsToString message with
        | false =>
          left
          rw [chat_of_log_error body upstream now message history messages hd hm hb hs]
        | true =>
          right
          refine ⟨message, history, messages, rfl, hm, hb, hs, ?_⟩
          rw [chat_of_messages body upstream now message history messages hd hm hb hs]

/-- A run that issued a request issued only that one, and its outcome is
decided by what the upstream did with it. -/
theorem chat_of_mem_calls (body : JsVal) (upstream : Upstream) (now : String)
    (request : UpstreamRequest) (h : request ∈ (chat body upstream now).calls) :
    chat body upstream now =
      { calls := [request],
        outcome :=
          match upstream request with
          | .error e => catchBlock e
          | .ok response =>
            match extractText response with
            | .error e => catchBlock e
            | .ok aiResponse =>
              .responded 200
                [("response", aiResponse),
                 ("model", str "claude-sonnet-4-20250514"),
                 ("timestamp", str now)] } := by
  rcases chat_calls_cases body upstream now with
    hnone | ⟨message, history, messages, hd, hm, hb, hs, hcalls⟩
  · rw [hnone] at h
    cases h
  · rw [hcalls, List.mem_singleton] at h
    subst h
    exact chat_of_messages body upstream now message history messages hd hm hb hs

theorem project_eq_roleContent (entry : JsVal) (m : Msg) (h : project entry = .ok m) :
    m = roleContent entry := by
  cases entry <;> simp_all [project, getProp, roleContent]

theorem pushAll_mem (entries : List JsVal) (messages : List Msg)
    (h : pushAll entries = .ok messages) :
    ∀ m ∈ messages, ∃ e ∈ entries, m = roleContent e := by
  induction entries generalizing messages with
  | nil =>
    simp only [pushAll, Except.ok.injEq] at h
    subst h
    intro m hmem
    cases hmem
  | cons e rest ih =>
    unfold pushAll at h
    cases hp : project e with
    | error err => simp [hp] at h
    | ok first =>
      cases hr : pushAll rest with
      | error err => simp [hp, hr] at h
      | ok others =>
        simp only [hp, hr, Except.ok.injEq] at h
        subst h
        intro m hmem
        rcases List.mem_cons.mp hmem with rfl | hmem
        · exact ⟨e, List.mem_cons_self e rest, project_eq_roleContent e m hp⟩
        · obtain ⟨x, hx, hmx⟩ := ih others hr m hmem
          exact ⟨x, List.mem_cons_of_mem e hx, hmx⟩

/-! ### Exceptions raised inside the handler are error objects -/

theorem getProp_error (v : JsVal) (key : String) (e : JsVal)
    (h : getProp v key = .error e) : nullish e = false := by
  cases v <;> simp [getProp] at h <;> first | (subst h; rfl) | (split at h <;> cases h)

theorem getIndex0_error (v e : JsVal) (h : getIndex0 v = .error e) :
    nullish e = false := by
  cases v <;> simp [getIndex0] at h <;> first | (subst h; rfl) | (split at h <;> cases h)

theorem stringConversion_error (v e : JsVal) (h : stringConversion v = .error e) :
    nullish e = false := by
  unfold stringConversion at h
  split at h
  · cases h
  · cases h
    rfl

theorem getProp_of_not_nullish (v : JsVal) (key : String) (h : nullish v = false) :
    ∃ r, getProp v key = .ok r := by
  cases v <;> simp_all [nullish, getProp] <;> split <;> exact ⟨_, rfl⟩

theorem destructure_of_not_nullish (body : JsVal) (hn : nullish body = false) :
    ∃ pair, destructure body = .ok pair := by
  obtain ⟨message, hm⟩ := getProp_of_not_nullish body "message" hn
  obtain ⟨history, hh⟩ := getProp_of_not_nullish body "history" hn
  cases body <;> simp [nullish] at hn <;> simp only [destructure, hm, hh] <;>
    cases history <;> exact ⟨_, rfl⟩

theorem destructure_error (body e : JsVal) (h : destructure body = .error e) :
    nullish e = false := by
  cases hn : nullish body with
  | true =>
    cases body <;> simp [nullish] at hn <;>
      (simp only [destructure, Except.error.injEq] at h; subst h; rfl)
  | false =>
    obtain ⟨pair, hp⟩ := destructure_of_not_nullish body hn
    rw [hp] at h
    cases h

theorem project_error (entry e : JsVal) (h : project entry = .error e) :
    nullish e = false := by
  unfold project at h
  cases hr : getProp entry "role" with
  | error err =>
    simp only [hr, Except.error.injEq] at h
    subst h
    exact getProp_error entry "role" err hr
  | ok role =>
    cases hc : getProp entry "content" with
    | error err =>
      simp only [hr, hc, Except.error.injEq] at h
      subst h
      exact getProp_error entry "content" err hc
    | ok content => simp [hr, hc] at h

theorem pushAll_error (entries : List JsVal) (e : JsVal)
    (h : pushAll entries = .error e) : nullish e = false := by
  induction entries with
  | nil => simp [pushAll] at h
  | cons x rest ih =>
    unfold pushAll at h
    cases hp : project x with
    | error err =>
      simp only [hp, Except.error.injEq] at h
      subst h
      exact project_error x err hp
    | ok first =>
      cases hr : pushAll rest with
      | error err =>
        simp only [hp, hr, Except.error.injEq] at h
        subst h
        exact ih hr
      | ok others => simp [hp, hr] at h

theorem buildMessages_error (history e : JsVal)
    (h : buildMessages history = .error e) : nullish e = false := by
  unfold buildMessages at h
  cases hr : recentHistory history with
  | error err =>
    simp only [hr, Except.error.injEq] at h
    subst h
    cases history <;> simp [recentHistory] at hr <;> subst hr <;> rfl
  | ok recent =>
    simp only [hr] at h
    exact pushAll_error recent e h

theorem extractText_error (response e : JsVal)
    (h : extractText response = .error e) : nullish e = false := by
  unfold extractText at h
  cases hc : getProp response "content" with
  | error err =>
    simp only [hc, Except.error.injEq] at h
    subst h
    exact getProp_error _ _ err hc
  | ok content =>
    cases hi : getIndex0 content with
    | error err =>
      simp only [hc, hi, Except.error.injEq] at h
      subst h
      exact getIndex0_error _ err hi
    | ok first =>
      cases ht : getProp first "text" with
      | error err =>
        simp only [hc, hi, ht, Except.error.injEq] at h
        subst h
        exact getProp_error _ _ err ht
      | ok aiResponse =>
        cases hl : getProp aiResponse "length" with
        | error err =>
          simp only [hc, hi, ht, hl, Except.error.injEq] at h
          subst h
          exact getProp_error _ _ err hl
        | ok len =>
          cases hv : stringConversion len with
          | error err =>
            simp only [hc, hi, ht, hl, hv, Except.error.injEq] at h
            subst h
            exact stringConversion_error len err hv
          | ok done => simp [hc, hi, ht, hl, hv] at h

theorem catchBlock_answered (error : JsVal) (h : nullish error = false) :
    Answered (catchBlock error) := by
  obtain ⟨status, hs⟩ := getProp_of_not_nullish error "status" h
  obtain ⟨details, hd⟩ := getProp_of_not_nullish error "message" h
  unfold catchBlock
  simp only [hs, hd]
  by_cases h429 : strictEqNum status 429 = true
  · simp only [h429, if_true]
    exact ⟨429, _, rfl, by simp, fun _ => ⟨_, rfl⟩⟩
  · by_cases h401 : strictEqNum status 401 = true
    · simp only [h429, h401, if_true]
      exact ⟨401, _, rfl, by simp, fun _ => ⟨_, rfl⟩⟩
    · simp only [h429, h401]
      exact ⟨500, _, rfl, by simp, fun _ => ⟨_, rfl⟩⟩

theorem extractText_of_empty_content (response : JsVal)
    (hc : getProp response "content" = .ok (arr [])) :
    extractText response =
      .error (typeError "Cannot read properties of undefined (reading \x27text\x27)") := by
  unfold extractText
  rw [hc]
  rfl

theorem catchBlock_typeError (text : String) :
    catchBlock (typeError text) =
      .responded 500 [("error", str "Failed to get AI response"), ("details", str text)] := by
  rfl

/-! ## Request validation -/

/-- C1: a body without a `message` field, or whose `message` is the empty
string, is answered with status 400 and the body `{error: "Message is
required"}` alone, and no upstream request is issued, whatever the other
fields of the body (among them `history`) and whatever the upstream would
answer. -/
theorem chat_message_required (fields : List (String × JsVal)) (upstream : Upstream)
    (now : String)
    (h : lookupField "message" fields = none ∨
      lookupField "message" fields = some (str "")) :
    chat (obj fields) upstream now =
      { calls := [],
        outcome := .responded 400 [("error", str "Message is required")] } := by
  unfold chat
  rw [destructure_obj]
  rcases h with h | h <;> simp [h, truthy]

theorem chat_message_required_witness :
    (lookupField "message" [("history", null)] = none ∨
      lookupField "message" [("history", null)] = some (str "")) ∧
    chat (obj [("history", null)]) (fun _ => .ok (obj [])) "2025-01-01T00:00:00.000Z" =
      { calls := [],
        outcome := .responded 400 [("error", str "Message is required")] } :=
  ⟨Or.inl rfl, chat_message_required [("history", null)] (fun _ => .ok (obj []))
    "2025-01-01T00:00:00.000Z" (Or.inl rfl)⟩

/-! ## History window -/

/-- C2, as amended: for a body whose `message` is non-empty and converts to a
string (as every string, number and boolean does) and whose `history` is an
array of length `n`, none of whose last `min n 10` entries is `null` (or
`undefined`), the handler issues one upstream request whose `messages` list is
the list of `{role, content}` projections of the entries of `history` from
position `n - 10` on, in their order. That list has `min n 10` entries, at
most ten; the first `n - 10` entries, whatever they are, take no part in
it. -/
theorem chat_history_window (body : JsVal) (upstream : Upstream) (now : String)
    (message : JsVal) (items : List JsVal)
    (hd : destructure body = .ok (message, arr items))
    (hm : truthy message = true)
    (hs : convertsToString message = true)
    (hn : ∀ e ∈ items.drop (items.length - 10), nullish e = false) :
    (chat body upstream now).calls =
        [upstreamRequest ((items.drop (items.length - 10)).map roleContent)] ∧
      ((items.drop (items.length - 10)).map roleContent).length = min items.length 10 ∧
      ((items.drop (items.length - 10)).map roleContent).length ≤ 10 := by
  have hb : buildMessages (arr items) =
      .ok ((items.drop (items.length - 10)).map roleContent) := by
    simp only [buildMessages, recentHistory, lastN]
    exact pushAll_of_not_nullish _ hn
  have hlen : ((items.drop (items.length - 10)).map roleContent).length =
      min items.length 10 := by
    simp
    omega
  refine ⟨?_, hlen, ?_⟩
  · rw [chat_of_messages body upstream now message (arr items) _ hd hm hb hs]
  · rw [hlen]
    exact Nat.min_le_right _ _

theorem chat_history_window_witness :
    (chat (obj [("message", str "next"), ("history", arr thirteenEntries)])
        (fun _ => .ok null) "2025-01-01T00:00:00.000Z").calls =
      [upstreamRequest ((List.range' 2 10).map (fun k =>
        { role := str "user", content := num k }))] := by
  have h := chat_history_window
    (obj [("message", str "next"), ("history", arr thirteenEntries)])
    (fun _ => .ok null) "2025-01-01T00:00:00.000Z" (str "next") thirteenEntries
    rfl rfl rfl (by decide)
  exact h.1

/-- C2, the claim as stated fails, at two inputs. With the non-empty message
`"hi"` and the history array `[{role: "user", content: "a"}, null]` of length
2, reading `msg.role` off the `null` entry throws. With the non-empty message
`{toString: 1}` and the history array `[{role: "user", content: "a"}]`, the
conversion of `message` to a string for the log line throws. Either time the
handler answers 500 and no upstream request is issued, so no `messages` list
is passed upstream at all, though the upstream would have answered. -/
theorem chat_history_window_counterexample :
    (destructure (obj [("message", str "hi"),
        ("history", arr [obj [("role", str "user"), ("content", str "a")], null])]) =
      .ok (str "hi", arr [obj [("role", str "user"), ("content", str "a")], null]) ∧
    truthy (str "hi") = true ∧
    (chat (obj [("message", str "hi"),
        ("history", arr [obj [("role", str "user"), ("content", str "a")], null])])
        (fun _ => .ok (obj [("content", arr [obj [("text", str "ok")]])]))
        "2025-01-01T00:00:00.000Z").calls = [] ∧
    ∃ details,
      (chat (obj [("message", str "hi"),
        ("history", arr [obj [("role", str "user"), ("content", str "a")], null])])
        (fun _ => .ok (obj [("content", arr [obj [("text", str "ok")]])]))
        "2025-01-01T00:00:00.000Z").outcome =
      .responded 500 [("error", str "Failed to get AI response"), ("details", details)]) ∧
    (destructure (obj [("message", obj [("toString", num 1)]),
        ("history", arr [obj [("role", str "user"), ("content", str "a")]])]) =
      .ok (obj [("toString", num 1)],
        arr [obj [("role", str "user"), ("content", str "a")]]) ∧
    truthy (obj [("toString", num 1)]) = true ∧
    (chat (obj [("message", obj [("toString", num 1)]),
        ("history", arr [obj [("role", str "user"), ("content", str "a")]])])
        (fun _ => .ok (obj [("content", arr [obj [("text", str "ok")]])]))
        "2025-01-01T00:00:00.000Z").calls = [] ∧
    ∃ details,
      (chat (obj [("message", obj [("toString", num 1)]),
        ("history", arr [obj [("role", str "user"), ("content", str "a")]])])
        (fun _ => .ok (obj [("content", arr [obj [("text", str "ok")]])]))
        "2025-01-01T00:00:00.000Z").outcome =
      .responded 500 [("error", str "Failed to get AI response"), ("details", details)]) :=
  ⟨⟨rfl, rfl, rfl, _, rfl⟩, ⟨rfl, rfl, rfl, _, rfl⟩⟩

/-- C3, as amended: for a body whose `message` is non-empty and converts to a
string (as every string, number and boolean does) and whose `history` (`[]`
by default, when the field is absent) has at most ten entries, each
consisting of exactly a `role` and a `content`, the handler issues one
upstream request whose `messages` list is the list of those turns: same
length, same order, same role and content at each position, and nothing after
them; `message` is not appended. -/
theorem chat_short_history_round_trip (body : JsVal) (upstream : Upstream)
    (now : String) (message : JsVal) (entries : List JsVal) (turns : List Msg)
    (hd : destructure body = .ok (message, arr entries))
    (hm : truthy message = true)
    (hs : convertsToString message = true)
    (hlen : entries.length ≤ 10)
    (ht : List.Forall₂ IsTurn entries turns) :
    (chat body upstream now).calls = [upstreamRequest turns] ∧
      (upstreamRequest turns).messages = turns ∧
      turns.length = entries.length := by
  have hb : buildMessages (arr entries) = .ok turns := by
    simp only [buildMessages, recentHistory, lastN_of_length_le 10 entries hlen]
    exact pushAll_of_turns entries turns ht
  refine ⟨?_, rfl, ht.length_eq.symm⟩
  rw [chat_of_messages body upstream now message (arr entries) turns hd hm hb hs]

theorem chat_short_history_round_trip_witness :
    (chat (obj [("message", str "test"),
        ("history", arr [obj [("role", str "user"), ("content", str "hi")],
          obj [("role", str "assistant"), ("content", str "hello")]])])
        (fun _ => .ok null) "2025-01-01T00:00:00.000Z").calls =
      [upstreamRequest [{ role := str "user", content := str "hi" },
        { role := str "assistant", content := str "hello" }]] ∧
    (chat (obj [("message", str "test")])
        (fun _ => .ok null) "2025-01-01T00:00:00.000Z").calls =
      [upstreamRequest []] :=
  ⟨(chat_short_history_round_trip
      (obj [("message", str "test"),
        ("history", arr [obj [("role", str "user"), ("content", str "hi")],
          obj [("role", str "assistant"), ("content", str "hello")]])])
      (fun _ => .ok null) "2025-01-01T00:00:00.000Z"
      (str "test")
      [obj [("role", str "user"), ("content", str "hi")],
        obj [("role", str "assistant"), ("content", str "hello")]]
      [{ role := str "user", content := str "hi" },
        { role := str "assistant", content := str "hello" }]
      rfl rfl rfl (by decide)
      (List.Forall₂.cons (Or.inl rfl)
        (List.Forall₂.cons (Or.inl rfl) List.Forall₂.nil))).1,
   (chat_short_history_round_trip (obj [("message", str "test")])
      (fun _ => .ok null) "2025-01-01T00:00:00.000Z"
      (str "test") [] [] rfl rfl rfl (by decide) List.Forall₂.nil).1⟩

/-- C3, the claim as stated fails: with the non-empty message `{toString: 1}`
and the history `[{role: "user", content: "hi"}, {role: "assistant", content:
"hello"}]` of two entries of exactly a `role` and a `content`, the conversion
of `message` to a string for the log line throws before the upstream call: the
handler answers 500 and no `messages` list is passed upstream. -/
theorem chat_short_history_round_trip_counterexample :
    destructure (obj [("message", obj [("toString", num 1)]),
        ("history", arr [obj [("role", str "user"), ("content", str "hi")],
          obj [("role", str "assistant"), ("content", str "hello")]])]) =
      .ok (obj [("toString", num 1)],
        arr [obj [("role", str "user"), ("content", str "hi")],
          obj [("role", str "assistant"), ("content", str "hello")]]) ∧
    truthy (obj [("toString", num 1)]) = true ∧
    (chat (obj [("message", obj [("toString", num 1)]),
        ("history", arr [obj [("role", str "user"), ("content", str "hi")],
          obj [("role", str "assistant"), ("content", str "hello")]])])
        (fun _ => .ok (obj [("content", arr [obj [("text", str "ok")]])]))
        "2025-01-01T00:00:00.000Z").calls = [] ∧
    ∃ details,
      (chat (obj [("message", obj [("toString", num 1)]),
        ("history", arr [obj [("role", str "user"), ("content", str "hi")],
          obj [("role", str "assistant"), ("content", str "hello")]])])
        (fun _ => .ok (obj [("content", arr [obj [("text", str "ok")]])]))
        "2025-01-01T00:00:00.000Z").outcome =
      .responded 500 [("error", str "Failed to get AI response"), ("details", details)] :=
  ⟨rfl, rfl, rfl, _, rfl⟩

/-! ## Error mapping -/

/-- C4: when the upstream call of a request is made and throws `error` (the
handler issued `request` and the upstream rejected it): if `error.status` is
the number 429 the client receives status 429 with the body
`{error: "Rate limit exceeded. Please try again in a moment."}`, and if it is
the number 401 the client receives status 401 with the body
`{error: "Invalid API key. Please check your configuration."}`. Either body
has the one field `error` and no `details`, and `request` is the only call. -/
theorem chat_rate_limit_and_auth_error (body : JsVal) (upstream : Upstream)
    (now : String) (request : UpstreamRequest) (error : JsVal)
    (hc : request ∈ (chat body upstream now).calls)
    (hu : upstream request = .error error) :
    (getProp error "status" = .ok (num 429) →
      chat body upstream now =
        { calls := [request],
          outcome := .responded 429
            [("error", str "Rate limit exceeded. Please try again in a moment.")] }) ∧
    (getProp error "status" = .ok (num 401) →
      chat body upstream now =
        { calls := [request],
          outcome := .responded 401
            [("error", str "Invalid API key. Please check your configuration.")] }) := by
  rw [chat_of_mem_calls body upstream now request hc]
  simp only [hu]
  constructor
  · intro hs
    rw [catchBlock_of_status error 429 hs]
    rfl
  · intro hs
    rw [catchBlock_of_status error 401 hs]
    rfl

theorem chat_rate_limit_and_auth_error_witness :
    chat (obj [("message", str "hi"),
        ("history", arr [obj [("role", str "user"), ("content", str "a")]])])
        (fun _ => .error (obj [("status", num 429), ("message", str "slow down")]))
        "2025-01-01T00:00:00.000Z" =
      { calls := [upstreamRequest [{ role := str "user", content := str "a" }]],
        outcome := .responded 429
          [("error", str "Rate limit exceeded. Please try again in a moment.")] } ∧
    chat (obj [("message", str "hi"),
        ("history", arr [obj [("role", str "user"), ("content", str "a")]])])
        (fun _ => .error (obj [("status", num 401), ("message", str "bad key")]))
        "2025-01-01T00:00:00.000Z" =
      { calls := [upstreamRequest [{ role := str "user", content := str "a" }]],
        outcome := .responded 401
          [("error", str "Invalid API key. Please check your configuration.")] } :=
  ⟨(chat_rate_limit_and_auth_error
      (obj [("message", str "hi"),
        ("history", arr [obj [("role", str "user"), ("content", str "a")]])])
      (fun _ => .error (obj [("status", num 429), ("message", str "slow down")]))
      "2025-01-01T00:00:00.000Z"
      (upstreamRequest [{ role := str "user", content := str "a" }])
      (obj [("status", num 429), ("message", str "slow down")])
      (List.mem_singleton.mpr rfl) rfl).1 rfl,
   (chat_rate_limit_and_auth_error
      (obj [("message", str "hi"),
        ("history", arr [obj [("role", str "user"), ("content", str "a")]])])
      (fun _ => .error (obj [("status", num 401), ("message", str "bad key")]))
      "2025-01-01T00:00:00.000Z"
      (upstreamRequest [{ role := str "user", content := str "a" }])
      (obj [("status", num 401), ("message", str "bad key")])
      (List.mem_singleton.mpr rfl) rfl).2 rfl⟩

/-- C5: when the upstream call of a request is made and throws an error whose
`status` is neither the number 429 nor the number 401 (an `undefined` status,
that of an error with no `status`, among them) and whose `message` is the text
`text`, the client receives status 500 with the body
`{error: "Failed to get AI response", details: text}`, and `request` is the
only call. -/
theorem chat_other_upstream_error (body : JsVal) (upstream : Upstream)
    (now : String) (request : UpstreamRequest) (error status : JsVal)
    (text : String)
    (hc : request ∈ (chat body upstream now).calls)
    (hu : upstream request = .error error)
    (hs : getProp error "status" = .ok status)
    (h429 : status ≠ num 429) (h401 : status ≠ num 401)
    (ht : getProp error "message" = .ok (str text)) :
    chat body upstream now =
      { calls := [request],
        outcome := .responded 500
          [("error", str "Failed to get AI response"), ("details", str text)] } := by
  rw [chat_of_mem_calls body upstream now request hc]
  simp only [hu]
  rw [catchBlock_of_other_status error status (str text) hs h429 h401 ht]

theorem chat_other_upstream_error_witness :
    chat (obj [("message", str "hi")])
        (fun _ => .error (obj [("message", str "socket hang up")]))
        "2025-01-01T00:00:00.000Z" =
      { calls := [upstreamRequest []],
        outcome := .responded 500
          [("error", str "Failed to get AI response"),
           ("details", str "socket hang up")] } :=
  chat_other_upstream_error (obj [("message", str "hi")])
    (fun _ => .error (obj [("message", str "socket hang up")]))
    "2025-01-01T00:00:00.000Z" (upstreamRequest [])
    (obj [("message", str "socket hang up")]) undefined "socket hang up"
    (List.mem_singleton.mpr rfl) rfl rfl (by simp) (by simp) rfl

/-! ## Success path -/

/-- C6: when the upstream call of a request is made and returns a reply whose
`content` is a non-empty list whose first segment has the string `text` as its
`text`, the client receives status 200 with a body of exactly the fields
`response`, `model` and `timestamp`, where `response` is `text` unmodified,
whatever the later segments, and `model` is `"claude-sonnet-4-20250514"`, the
`model` of the request that was issued. -/
theorem chat_success (body : JsVal) (upstream : Upstream) (now : String)
    (request : UpstreamRequest) (response first : JsVal) (rest : List JsVal)
    (text : String)
    (hc : request ∈ (chat body upstream now).calls)
    (hu : upstream request = .ok response)
    (hcontent : getProp response "content" = .ok (arr (first :: rest)))
    (ht : getProp first "text" = .ok (str text)) :
    chat body upstream now =
      { calls := [request],
        outcome := .responded 200
          [("response", str text),
           ("model", str "claude-sonnet-4-20250514"),
           ("timestamp", str now)] } ∧
      request.model = "claude-sonnet-4-20250514" := by
  constructor
  · rw [chat_of_mem_calls body upstream now request hc]
    simp only [hu, extractText_of_text response first rest text hcontent ht]
  · rcases chat_calls_cases body upstream now with
      hnone | ⟨_, _, messages, _, _, _, _, hcalls⟩
    · rw [hnone] at hc
      cases hc
    · rw [hcalls, List.mem_singleton] at hc
      subst hc
      rfl

theorem chat_success_witness :
    chat (obj [("message", str "hi")])
        (fun _ => .ok (obj [("content",
          arr [obj [("type", str "text"), ("text", str "Try Sodium.")],
            obj [("type", str "text"), ("text", str "ignored")]])]))
        "2025-01-01T00:00:00.000Z" =
      { calls := [upstreamRequest []],
        outcome := .responded 200
          [("response", str "Try Sodium."),
           ("model", str "claude-sonnet-4-20250514"),
           ("timestamp", str "2025-01-01T00:00:00.000Z")] } :=
  (chat_success (obj [("message", str "hi")])
    (fun _ => .ok (obj [("content",
      arr [obj [("type", str "text"), ("text", str "Try Sodium.")],
        obj [("type", str "text"), ("text", str "ignored")]])]))
    "2025-01-01T00:00:00.000Z" (upstreamRequest [])
    (obj [("content",
      arr [obj [("type", str "text"), ("text", str "Try Sodium.")],
        obj [("type", str "text"), ("text", str "ignored")]])])
    (obj [("type", str "text"), ("text", str "Try Sodium.")])
    [obj [("type", str "text"), ("text", str "ignored")]] "Try Sodium."
    (List.mem_singleton.mpr rfl) rfl rfl rfl).1

/-! ## Upstream calls -/

/-- C7, as amended: every request causes at most one upstream call; and a
request with a non-empty `message` that converts to a string (as every string,
number and boolean does) and a `history` that is an array (the default `[]`
when the field is absent) none of whose last ten entries is `null` (or
`undefined`) causes exactly one upstream call, whatever the upstream does:
when that call throws, the handler goes to its `catch` block and the outcome
is the one the block maps the error to, with no further call. -/
theorem chat_single_upstream_call (body : JsVal) (upstream : Upstream) (now : String) :
    (chat body upstream now).calls.length ≤ 1 ∧
    ∀ message items, destructure body = .ok (message, arr items) →
      truthy message = true →
      convertsToString message = true →
      (∀ e ∈ items.drop (items.length - 10), nullish e = false) →
      (chat body upstream now).calls.length = 1 ∧
      ∀ request error, request ∈ (chat body upstream now).calls →
        upstream request = .error error →
        (chat body upstream now).outcome = catchBlock error := by
  constructor
  · rcases chat_calls_cases body upstream now with h | ⟨_, _, _, _, _, _, _, h⟩ <;>
      simp [h]
  · intro message items hd hm hs hn
    have hb : buildMessages (arr items) =
        .ok ((items.drop (items.length - 10)).map roleContent) := by
      simp only [buildMessages, recentHistory, lastN]
      exact pushAll_of_not_nullish _ hn
    rw [chat_of_messages body upstream now message (arr items) _ hd hm hb hs]
    refine ⟨rfl, ?_⟩
    intro request error hmem hu
    simp only [List.mem_singleton] at hmem
    subst hmem
    simp only [hu]

theorem chat_single_upstream_call_witness :
    (chat (obj [("message", str "hi"), ("history", arr [num 7, str "x"])])
        (fun _ => .error (obj [("status", num 529), ("message", str "overloaded")]))
        "2025-01-01T00:00:00.000Z").calls.length = 1 ∧
    (chat (obj [("message", str "hi"), ("history", arr [num 7, str "x"])])
        (fun _ => .error (obj [("status", num 529), ("message", str "overloaded")]))
        "2025-01-01T00:00:00.000Z").outcome =
      .responded 500
        [("error", str "Failed to get AI response"), ("details", str "overloaded")] :=
  ⟨((chat_single_upstream_call
      (obj [("message", str "hi"), ("history", arr [num 7, str "x"])])
      (fun _ => .error (obj [("status", num 529), ("message", str "overloaded")]))
      "2025-01-01T00:00:00.000Z").2 (str "hi") [num 7, str "x"] rfl rfl rfl
      (by decide)).1,
   ((chat_single_upstream_call
      (obj [("message", str "hi"), ("history", arr [num 7, str "x"])])
      (fun _ => .error (obj [("status", num 529), ("message", str "overloaded")]))
      "2025-01-01T00:00:00.000Z").2 (str "hi") [num 7, str "x"] rfl rfl rfl
      (by decide)).2
      (upstreamRequest [{ role := undefined, content := undefined },
        { role := undefined, content := undefined }])
      (obj [("status", num 529), ("message", str "overloaded")])
      (List.mem_singleton.mpr rfl) rfl⟩

/-- C7, the claim as stated fails, at two inputs. The body
`{message: "hi", history: [null]}` has a non-empty `message` and an array
`history`, yet reading `msg.role` off the `null` entry throws before the
upstream call is reached. The body `{message: {toString: 1}}` has a non-empty
`message` and no `history`, yet the conversion of `message` to a string for
the log line throws before the upstream call is reached. Either time the
handler answers 500 and the number of upstream calls is zero, not one. -/
theorem chat_single_upstream_call_counterexample :
    (destructure (obj [("message", str "hi"), ("history", arr [null])]) =
      .ok (str "hi", arr [null]) ∧
    truthy (str "hi") = true ∧
    (chat (obj [("message", str "hi"), ("history", arr [null])])
        (fun _ => .ok (obj [("content", arr [obj [("text", str "ok")]])]))
        "2025-01-01T00:00:00.000Z").calls.length = 0 ∧
    ∃ details,
      (chat (obj [("message", str "hi"), ("history", arr [null])])
        (fun _ => .ok (obj [("content", arr [obj [("text", str "ok")]])]))
        "2025-01-01T00:00:00.000Z").outcome =
      .responded 500 [("error", str "Failed to get AI response"), ("details", details)]) ∧
    (destructure (obj [("message", obj [("toString", num 1)])]) =
      .ok (obj [("toString", num 1)], arr []) ∧
    truthy (obj [("toString", num 1)]) = true ∧
    (chat (obj [("message", obj [("toString", num 1)])])
        (fun _ => .ok (obj [("content", arr [obj [("text", str "ok")]])]))
        "2025-01-01T00:00:00.000Z").calls.length = 0 ∧
    ∃ details,
      (chat (obj [("message", obj [("toString", num 1)])])
        (fun _ => .ok (obj [("content", arr [obj [("text", str "ok")]])]))
        "2025-01-01T00:00:00.000Z").outcome =
      .responded 500 [("error", str "Failed to get AI response"), ("details", details)]) :=
  ⟨⟨rfl, rfl, rfl, _, rfl⟩, ⟨rfl, rfl, rfl, _, rfl⟩⟩

/-- C8: every upstream request the handler issues, for any body and any
upstream, has `model = "claude-sonnet-4-20250514"`, `max_tokens = 2048` and
`system = SYSTEM_PROMPT`; and for a valid request (one the handler takes to
the upstream call: a non-empty `message` that converts to a string for the log
line, and a `history` from which the `messages` array is built) the one
request issued is made of these three constants and of `messages`, its only
argument that depends on the request. -/
theorem chat_upstream_arguments (body : JsVal) (upstream : Upstream) (now : String) :
    (∀ request ∈ (chat body upstream now).calls,
      request.model = "claude-sonnet-4-20250514" ∧ request.max_tokens = 2048 ∧
      request.system = SYSTEM_PROMPT) ∧
    ∀ message history messages, destructure body = .ok (message, history) →
      truthy message = true → convertsToString message = true →
      buildMessages history = .ok messages →
      (chat body upstream now).calls =
        [{ model := "claude-sonnet-4-20250514", max_tokens := 2048,
           system := SYSTEM_PROMPT, messages := messages }] := by
  constructor
  · intro request hmem
    rcases chat_calls_cases body upstream now with h | ⟨_, _, messages, _, _, _, _, h⟩
    · rw [h] at hmem
      cases hmem
    · rw [h, List.mem_singleton] at hmem
      subst hmem
      exact ⟨rfl, rfl, rfl⟩
  · intro message history messages hd hm hs hb
    rw [chat_of_messages body upstream now message history messages hd hm hb hs]
    rfl

theorem chat_upstream_arguments_witness :
    (chat (obj [("message", str "best shaders?"),
        ("history", arr [obj [("role", str "user"), ("content", str "a")]])])
        (fun _ => .ok null) "2025-01-01T00:00:00.000Z").calls =
      [{ model := "claude-sonnet-4-20250514", max_tokens := 2048,
         system := SYSTEM_PROMPT,
         messages := [{ role := str "user", content := str "a" }] }] :=
  (chat_upstream_arguments
    (obj [("message", str "best shaders?"),
      ("history", arr [obj [("role", str "user"), ("content", str "a")]])])
    (fun _ => .ok null) "2025-01-01T00:00:00.000Z").2
    (str "best shaders?") (arr [obj [("role", str "user"), ("content", str "a")]])
    [{ role := str "user", content := str "a" }] rfl rfl rfl rfl

/-- C9, as amended: two bodies with the same `history` and non-empty `message`
values that convert to strings (as every string, number and boolean does) are
handled identically for the same upstream: the same upstream requests are
issued (model, max_tokens, system and messages) and the same outcome follows,
whatever the two messages are. Every entry of a forwarded `messages` list is
the `{role, content}` projection of one of the elements of
`history.slice(-10)`, so nothing of `message` is forwarded that is not in the
last ten entries of `history`. -/
theorem chat_message_discarded (bodyA bodyB : JsVal) (upstream : Upstream)
    (now : String) (messageA messageB history : JsVal)
    (hdA : destructure bodyA = .ok (messageA, history))
    (hdB : destructure bodyB = .ok (messageB, history))
    (hmA : truthy messageA = true) (hmB : truthy messageB = true)
    (hsA : convertsToString messageA = true)
    (hsB : convertsToString messageB = true) :
    chat bodyA upstream now = chat bodyB upstream now ∧
    ∀ request ∈ (chat bodyA upstream now).calls, ∀ m ∈ request.messages,
      ∃ recent, recentHistory history = .ok recent ∧ ∃ e ∈ recent, m = roleContent e := by
  constructor
  · unfold chat
    simp only [hdA, hdB, hmA, hmB, stringConversion, hsA, hsB]
  · intro request hmem m hm
    cases hb : buildMessages history with
    | error err =>
      rw [chat_of_build_error bodyA upstream now messageA history err hdA hmA hb] at hmem
      cases hmem
    | ok messages =>
      rw [chat_of_messages bodyA upstream now messageA history messages hdA hmA hb hsA,
        List.mem_singleton] at hmem
      subst hmem
      unfold buildMessages at hb
      cases hr : recentHistory history with
      | error err => simp [hr] at hb
      | ok recent =>
        simp only [hr] at hb
        exact ⟨recent, rfl, pushAll_mem recent messages hb m hm⟩

theorem chat_message_discarded_witness :
    chat (obj [("message", str "how do I install Fabric?"),
        ("history", arr [obj [("role", str "user"), ("content", str "a")]])])
        (fun _ => .ok (obj [("content", arr [obj [("text", str "ok")]])]))
        "2025-01-01T00:00:00.000Z" =
      chat (obj [("history", arr [obj [("role", str "user"), ("content", str "a")]]),
        ("message", num 5)])
        (fun _ => .ok (obj [("content", arr [obj [("text", str "ok")]])]))
        "2025-01-01T00:00:00.000Z" :=
  (chat_message_discarded
    (obj [("message", str "how do I install Fabric?"),
      ("history", arr [obj [("role", str "user"), ("content", str "a")]])])
    (obj [("history", arr [obj [("role", str "user"), ("content", str "a")]]),
      ("message", num 5)])
    (fun _ => .ok (obj [("content", arr [obj [("text", str "ok")]])]))
    "2025-01-01T00:00:00.000Z"
    (str "how do I install Fabric?") (num 5)
    (arr [obj [("role", str "user"), ("content", str "a")]])
    rfl rfl rfl rfl rfl rfl).1

/-- C9, the claim as stated fails: the bodies `{message: "hi", history: h}`
and `{message: {toString: 1}, history: h}`, with the same history
`h = [{role: "user", content: "a"}]` and two non-empty messages, are not
handled alike. For the first the handler issues the upstream request; for the
second the conversion of `message` to a string for the log line throws and no
upstream request is issued. -/
theorem chat_message_discarded_counterexample :
    destructure (obj [("message", str "hi"),
        ("history", arr [obj [("role", str "user"), ("content", str "a")]])]) =
      .ok (str "hi", arr [obj [("role", str "user"), ("content", str "a")]]) ∧
    destructure (obj [("message", obj [("toString", num 1)]),
        ("history", arr [obj [("role", str "user"), ("content", str "a")]])]) =
      .ok (obj [("toString", num 1)],
        arr [obj [("role", str "user"), ("content", str "a")]]) ∧
    truthy (str "hi") = true ∧
    truthy (obj [("toString", num 1)]) = true ∧
    (chat (obj [("message", str "hi"),
        ("history", arr [obj [("role", str "user"), ("content", str "a")]])])
        (fun _ => .ok (obj [("content", arr [obj [("text", str "ok")]])]))
        "2025-01-01T00:00:00.000Z").calls =
      [upstreamRequest [{ role := str "user", content := str "a" }]] ∧
    (chat (obj [("message", obj [("toString", num 1)]),
        ("history", arr [obj [("role", str "user"), ("content", str "a")]])])
        (fun _ => .ok (obj [("content", arr [obj [("text", str "ok")]])]))
        "2025-01-01T00:00:00.000Z").calls = [] :=
  ⟨rfl, rfl, rfl, rfl, rfl, rfl⟩

/-! ## Error boundary -/

/-- C10: for every body (an object with any `message` and any `history`, or
any other value) and every upstream that throws only values other than `null`
and `undefined` (error objects among them), whatever the shape of the replies
it returns, the handler sends one JSON response with status 200, 400, 401, 429
or 500 whose body, unless the status is 200, has a string `error` field; no
exception leaves the handler. When the reply to the request issued has an
empty `content` list, the response is 500 with `error` equal to
`"Failed to get AI response"`. -/
theorem chat_error_boundary (body : JsVal) (upstream : Upstream) (now : String)
    (hu : ∀ request error, upstream request = .error error → nullish error = false) :
    Answered (chat body upstream now).outcome ∧
    ∀ request response, request ∈ (chat body upstream now).calls →
      upstream request = .ok response →
      getProp response "content" = .ok (arr []) →
      ∃ details, (chat body upstream now).outcome =
        .responded 500 [("error", str "Failed to get AI response"), ("details", details)] := by
  cases hd : destructure body with
  | error e =>
    rw [chat_of_destructure_error body upstream now e hd]
    refine ⟨catchBlock_answered e (destructure_error body e hd), ?_⟩
    intro request response hmem
    cases hmem
  | ok pair =>
    obtain ⟨message, history⟩ := pair
    cases hm : truthy message with
    | false =>
      rw [chat_of_falsy_message body upstream now message history hd hm]
      refine ⟨⟨400, _, rfl, by simp, fun _ => ⟨_, rfl⟩⟩, ?_⟩
      intro request response hmem
      cases hmem
    | true =>
      cases hb : buildMessages history with
      | error e =>
        rw [chat_of_build_error body upstream now message history e hd hm hb]
        refine ⟨catchBlock_answered e (buildMessages_error history e hb), ?_⟩
        intro request response hmem
        cases hmem
      | ok messages =>
        cases hs : convertsToString message with
        | false =>
          rw [chat_of_log_error body upstream now message history messages hd hm hb hs]
          refine ⟨catchBlock_answered
            (typeError "Cannot convert object to primitive value") rfl, ?_⟩
          intro request response hmem
          cases hmem
        | true =>
          rw [chat_of_messages body upstream now message history messages hd hm hb hs]
          constructor
          · cases hup : upstream (upstreamRequest messages) with
            | error e => exact catchBlock_answered e (hu _ e hup)
            | ok response =>
              cases he : extractText response with
              | error e =>
                simp only [he]
                exact catchBlock_answered e (extractText_error response e he)
              | ok aiResponse =>
                simp only [he]
                exact ⟨200, _, rfl, by simp, fun h => absurd rfl h⟩
          · intro request response hmem hup hc
            simp only [List.mem_singleton] at hmem
            subst hmem
            simp only [hup, extractText_of_empty_content response hc]
            exact ⟨_, catchBlock_typeError _⟩

theorem chat_error_boundary_witness :
    Answered (chat (obj [("message", str "hi"), ("history", null)])
      (fun _ => .error (obj [("status", num 429)]))
      "2025-01-01T00:00:00.000Z").outcome ∧
    (chat (obj [("message", str "hi"), ("history", null)])
      (fun _ => .error (obj [("status", num 429)]))
      "2025-01-01T00:00:00.000Z").calls = [] :=
  ⟨(chat_error_boundary (obj [("message", str "hi"), ("history", null)])
      (fun _ => .error (obj [("status", num 429)]))
      "2025-01-01T00:00:00.000Z"
      (fun _ error h => by cases h; rfl)).1, rfl⟩

end ChatRelay
